import Mathlib

/-!
Verification of the acss_fronted client core: the API transport wrapper
(src/api.py) and the status-polling / UI callback logic (src/user/main.py),
shallowly embedded as pure Lean functions.
-/

namespace Acss

/-- Model of a parsed JSON value (what `requests.Response.json()` yields). -/
inductive Json where
  | null
  | bool (b : Bool)
  | num (n : Int)
  | str (s : String)
  | arr (elems : List Json)
  | obj (fields : List (String × Json))

/-- Python `d.get(key)` on a dict, and `None` for non-dict values. -/
def Json.lookup : Json → String → Option Json
  | Json.obj fields, key => fields.lookup key
  | _, _ => none

/-- Python exceptions that are not caught anywhere in api.py:
`KeyError` from `resp['k']` on a dict lacking `'k'`, and `TypeError`
from subscripting a non-dict value with a string key. -/
inductive RawExc where
  | keyError (key : String)
  | typeError
deriving DecidableEq

/-- Python `resp[key]` for a string key: the value on a dict that has it,
`KeyError` on a dict that lacks it, `TypeError` on any non-dict. -/
def getItem : Json → String → Except RawExc Json
  | Json.obj fields, key =>
      match fields.lookup key with
      | some v => Except.ok v
      | none => Except.error (RawExc.keyError key)
  | _, _ => Except.error RawExc.typeError

/-- Python `x == -1` for a JSON-decoded `x` (bools are not `-1`, and
non-numbers compare unequal to `-1` without raising). -/
def isNegOne : Json → Bool
  | Json.num n => n = -1
  | _ => false

/-- What the HTTP layer produced for one request: one of the exception
classes caught in api.py's `try` block, or a parsed JSON body. -/
inductive TransportOutcome where
  | connectTimeout
  | connectionError
  | readTimeout
  | httpError
  | otherException
  | body (resp : Json)

/-- The observable outcome of `api_post` / `api_get`: the returned `data`
payload, a raised `ApiError` carrying a message, or an uncaught raw
Python exception escaping the wrapper. -/
inductive ApiOutcome where
  | ok (data : Option Json)
  | apiError (message : Json)
  | raw (e : RawExc)

/-- src/api.py `api_post`, lines 48-66: exception normalization inside the
`try` block, then the envelope decode (`resp['code']`, `resp['message']`,
`resp.get('data')`) outside it. -/
def api_post_response (outcome : TransportOutcome) : ApiOutcome :=
  match outcome with
  | TransportOutcome.connectTimeout => ApiOutcome.apiError (Json.str "连接超时")
  | TransportOutcome.connectionError => ApiOutcome.apiError (Json.str "连接错误")
  | TransportOutcome.readTimeout => ApiOutcome.apiError (Json.str "数据读取超时")
  | TransportOutcome.httpError => ApiOutcome.apiError (Json.str "Http错误")
  | TransportOutcome.otherException => ApiOutcome.apiError (Json.str "网络错误")
  | TransportOutcome.body resp =>
      match getItem resp "code" with
      | Except.error e => ApiOutcome.raw e
      | Except.ok c =>
          if isNegOne c then
            match getItem resp "message" with
            | Except.error e => ApiOutcome.raw e
            | Except.ok m => ApiOutcome.apiError m
          else
            ApiOutcome.ok (resp.lookup "data")

/-- src/api.py `api_get`, lines 82-100: identical normalization and decode
logic, duplicated in the source for GET requests. -/
def api_get_response (outcome : TransportOutcome) : ApiOutcome :=
  match outcome with
  | TransportOutcome.connectTimeout => ApiOutcome.apiError (Json.str "连接超时")
  | TransportOutcome.connectionError => ApiOutcome.apiError (Json.str "连接错误")
  | TransportOutcome.readTimeout => ApiOutcome.apiError (Json.str "数据读取超时")
  | TransportOutcome.httpError => ApiOutcome.apiError (Json.str "Http错误")
  | TransportOutcome.otherException => ApiOutcome.apiError (Json.str "网络错误")
  | TransportOutcome.body resp =>
      match getItem resp "code" with
      | Except.error e => ApiOutcome.raw e
      | Except.ok c =>
          if isNegOne c then
            match getItem resp "message" with
            | Except.error e => ApiOutcome.raw e
            | Except.ok m => ApiOutcome.apiError m
          else
            ApiOutcome.ok (resp.lookup "data")

/-- src/api.py line 8. -/
def BASE_URL : String := "http://127.0.0.1:8000"

/-- The request actually issued on the wire: URL, optional Authorization
header, optional JSON body. -/
structure Request where
  url : String
  authHeader : Option String
  body : Option Json

/-- src/api.py `api_post`, lines 47-53: URL construction and the
conditional `Authorization: Bearer {TOKEN}` header. -/
def api_post_request (token path : String) (body : Json) : Request :=
  { url := BASE_URL ++ path,
    authHeader := if token.length > 0 then some ("Bearer " ++ token) else none,
    body := some body }

/-- src/api.py `api_get`, lines 81-87: same header rule, no body. -/
def api_get_request (token path : String) : Request :=
  { url := BASE_URL ++ path,
    authHeader := if token.length > 0 then some ("Bearer " ++ token) else none,
    body := none }

/-- src/api.py `submit_charging_request` (lines 121-126): the JSON body sent. -/
def submit_charging_request_body
    (charge_mode require_amount battery_size : String) : Json :=
  Json.obj [("charge_mode", Json.str charge_mode),
            ("require_amount", Json.str require_amount),
            ("battery_size", Json.str battery_size)]

/-- src/api.py `edit_charging_request` (lines 129-133): the JSON body sent. -/
def edit_charging_request_body (charge_mode require_amount : String) : Json :=
  Json.obj [("charge_mode", Json.str charge_mode),
            ("require_amount", Json.str require_amount)]

/-- The mutable client state touched by src/user/main.py: the module-level
`api.TOKEN` (src/api.py line 9), the module-level `last_state`
(src/user/main.py line 81), and the UI label texts written by the handlers. -/
structure ClientState where
  token : String
  last_state : Int
  user_role_label : String
  user_state_label : String
  queue_position_label : String
  request_id_label : String
  time_label : String
  status_label : String
deriving DecidableEq

/-- The state at process start: `TOKEN = ''` (src/api.py line 9) and
`last_state = 0` (src/user/main.py line 81); label texts empty. -/
def initClientState : ClientState :=
  { token := "", last_state := 0, user_role_label := "", user_state_label := "",
    queue_position_label := "", request_id_label := "", time_label := "",
    status_label := "" }

/-- The payload that `api.preview_queue()` delivers to `preview_callback`:
the fields of `data` that the callback reads. `charge_id` is `none` for a
JSON null. -/
structure PreviewData where
  queue_len : Int
  charge_id : Option String
  cur_state : String
deriving DecidableEq

/-- Python truthiness of `data['charge_id']`: `None` and `''` are falsy. -/
def pyTruthy : Option String → Bool
  | none => false
  | some s => s ≠ ""

/-- The toast text of src/user/main.py line 141. -/
def completion_message : String := "充电结束 请查询详单"

/-- Everything one run of `preview_callback` does: the resulting client
state, the toasts shown (in order), and the API paths called (in order). -/
structure TickResult where
  state : ClientState
  toasts : List String
  network_calls : List String
deriving DecidableEq

/-- src/user/main.py `preview_callback` lines 117-153, after the token
guard has passed: the two awaited calls with their `except` clauses, the
label updates, and the state-machine branch on `data['cur_state']`. -/
def preview_tick_body (st : ClientState) :
    Except String PreviewData → Except String (String × Int) → TickResult
  | Except.error e, _ => ⟨st, [e], ["/user/preview_queue"]⟩
  | Except.ok _, Except.error e => ⟨st, [e], ["/user/preview_queue", "/time"]⟩
  | Except.ok data, Except.ok now_time =>
      let base : ClientState :=
        { st with
          queue_position_label :=
            if data.queue_len ≠ -1 then "前有" ++ toString data.queue_len ++ "人"
            else "",
          request_id_label :=
            if pyTruthy data.charge_id then data.charge_id.getD ""
            else st.request_id_label,
          time_label := now_time.1 }
      if data.cur_state = "NOTCHARGING" then
        if st.last_state = 1 then
          ⟨{ base with status_label := "没有充电请求", last_state := 0 },
            [completion_message], ["/user/preview_queue", "/time"]⟩
        else
          ⟨{ base with status_label := "没有充电请求" }, [],
            ["/user/preview_queue", "/time"]⟩
      else if data.cur_state = "WAITINGSTAGE1" then
        ⟨{ base with status_label := "在等候区等待" }, [],
          ["/user/preview_queue", "/time"]⟩
      else if data.cur_state = "WAITINGSTAGE2" then
        ⟨{ base with status_label := "在充电区等待" }, [],
          ["/user/preview_queue", "/time"]⟩
      else if data.cur_state = "CHARGING" then
        ⟨{ base with status_label := "正在充电", last_state := 1 }, [],
          ["/user/preview_queue", "/time"]⟩
      else if data.cur_state = "CHANGEMODEREQUEUE" then
        ⟨{ base with status_label := "充电模式更改 重新排队" }, [],
          ["/user/preview_queue", "/time"]⟩
      else if data.cur_state = "FAULTREQUEUE" then
        ⟨{ base with status_label := "充电桩故障" }, [],
          ["/user/preview_queue", "/time"]⟩
      else
        ⟨base, [], ["/user/preview_queue", "/time"]⟩

/-- src/user/main.py `preview_callback` lines 112-153: the
`len(api.TOKEN) == 0` guard (lines 115-116) followed by the tick body.
The two `Except` arguments stand for what `api.preview_queue()` and
`api.time()` would deliver if called on this tick. -/
def preview_callback (st : ClientState)
    (preview_result : Except String PreviewData)
    (time_result : Except String (String × Int)) : TickResult :=
  if st.token.length = 0 then ⟨st, [], []⟩
  else preview_tick_body st preview_result time_result

/-- src/user/main.py `on_login_clicked` lines 19-35: reject admin logins
with a toast and no state change; otherwise store the token and update the
role/state labels. The argument is what `api.login` delivers. -/
def on_login_clicked (st : ClientState)
    (login_result : Except String (String × Bool)) : ClientState × List String :=
  match login_result with
  | Except.error e => (st, [e])
  | Except.ok (tok, is_admin) =>
      if is_admin then
        (st, ["请使用用户账号"])
      else
        ({ st with
            token := tok,
            user_role_label := "USER",
            user_state_label := "已登陆" }, ["登陆成功"])

/-- src/user/main.py `on_submit_clicked` lines 156-165: the mode-label
translation and the body handed to `api.submit_charging_request`. -/
def on_submit_clicked (mode_text require_amount battery_capacity : String) : Json :=
  submit_charging_request_body (if mode_text = "快充" then "F" else "T")
    require_amount battery_capacity

/-- src/user/main.py `on_edit_request_clicked` lines 172-180: the same
mode-label translation and the body handed to `api.edit_charging_request`. -/
def on_edit_request_clicked (mode_text require_amount : String) : Json :=
  edit_charging_request_body (if mode_text = "快充" then "F" else "T")
    require_amount

/-- The transition of `last_state` on one successful poll tick, as a pure
function (src/user/main.py lines 138-153): set to 1 on CHARGING, reset to 0
on NOTCHARGING when it was 1, otherwise unchanged. -/
def stepFlag (flag : Int) (obs : String) : Int :=
  if obs = "NOTCHARGING" then (if flag = 1 then 0 else flag)
  else if obs = "CHARGING" then 1 else flag

/-- Reference recursion: the completion-notification flags a run of
successful ticks produces, given the starting `last_state`. -/
def notifList (flag : Int) : List String → List Bool
  | [] => []
  | o :: rest =>
      (decide (o = "NOTCHARGING") && decide (flag = 1)) :: notifList (stepFlag flag o) rest

/-- Run `preview_callback` over a list of successful ticks (each a preview
payload plus a server time) and record, per tick, whether the completion
notification was emitted. -/
def pollNotifs (st : ClientState) :
    List (PreviewData × String × Int) → List Bool
  | [] => []
  | tk :: rest =>
      let r := preview_callback st (Except.ok tk.1) (Except.ok tk.2)
      decide (completion_message ∈ r.toasts) :: pollNotifs r.state rest

theorem string_length_eq_zero (s : String) : s.length = 0 ↔ s = "" := by
  cases s with
  | mk data =>
    constructor
    · intro h
      have hd : data = [] := List.length_eq_zero.mp (by simpa [String.length] using h)
      subst hd
      rfl
    · intro h
      rw [h]
      rfl

theorem token_length_ne_zero (st : ClientState) (h : st.token ≠ "") :
    ¬ st.token.length = 0 :=
  fun hz => h ((string_length_eq_zero st.token).mp hz)

/-- Shape of one authenticated successful tick: the token is untouched,
`last_state` follows `stepFlag`, and the only possible toast is the
completion notification, shown exactly when the tick observes NOTCHARGING
while `last_state` is 1. -/
theorem preview_tick_success (st : ClientState) (h : st.token ≠ "")
    (p : PreviewData) (t : String × Int) :
    (preview_callback st (Except.ok p) (Except.ok t)).state.token = st.token ∧
    (preview_callback st (Except.ok p) (Except.ok t)).state.last_state =
      stepFlag st.last_state p.cur_state ∧
    (preview_callback st (Except.ok p) (Except.ok t)).toasts =
      (if p.cur_state = "NOTCHARGING" ∧ st.last_state = 1
       then [completion_message] else []) := by
  have hlen := token_length_ne_zero st h
  unfold preview_callback
  rw [if_neg hlen]
  unfold preview_tick_body
  simp only [stepFlag]
  split_ifs <;> simp_all

/-- C3: on an authenticated tick on which `previewQueue()` fails with the
domain error, or on which it succeeds and `time()` fails with the domain
error, the tick surfaces exactly that error message as a toast, performs
only the network calls made before the failure, and leaves the whole
client state — in particular `last_state` — unchanged, so a later
successful tick computes its transition against the pre-failure
observation. -/
theorem C3_failure_leaves_observation (st : ClientState) (h : st.token ≠ "")
    (e : String) (p : PreviewData) (t : Except String (String × Int)) :
    preview_callback st (Except.error e) t =
      ⟨st, [e], ["/user/preview_queue"]⟩ ∧
    preview_callback st (Except.ok p) (Except.error e) =
      ⟨st, [e], ["/user/preview_queue", "/time"]⟩ := by
  have hlen := token_length_ne_zero st h
  unfold preview_callback
  rw [if_neg hlen, if_neg hlen]
  cases t <;> exact ⟨rfl, rfl⟩

theorem C3_witness :
    (⟨"tok", 1, "", "", "", "", "", ""⟩ : ClientState).token ≠ "" ∧
    preview_callback ⟨"tok", 1, "", "", "", "", "", ""⟩
        (Except.error "连接超时") (Except.ok ("t", 0)) =
      ⟨⟨"tok", 1, "", "", "", "", "", ""⟩, ["连接超时"], ["/user/preview_queue"]⟩ :=
  ⟨by decide,
    (C3_failure_leaves_observation ⟨"tok", 1, "", "", "", "", "", ""⟩ (by decide)
      "连接超时" ⟨0, none, "CHARGING"⟩ (Except.ok ("t", 0))).1⟩

/-- C4: a poll tick that starts while the session token is the empty
string returns immediately: no network call is made, no toast is shown,
and the client state is unchanged. -/
theorem C4_unauthenticated_tick_noop (st : ClientState) (h : st.token = "")
    (preview_result : Except String PreviewData)
    (time_result : Except String (String × Int)) :
    preview_callback st preview_result time_result = ⟨st, [], []⟩ := by
  unfold preview_callback
  rw [if_pos ((string_length_eq_zero st.token).mpr h)]

theorem C4_witness :
    preview_callback initClientState
        (Except.ok ⟨3, some "F1", "CHARGING"⟩) (Except.ok ("t", 7)) =
      ⟨initClientState, [], []⟩ :=
  C4_unauthenticated_tick_noop initClientState rfl
    (Except.ok ⟨3, some "F1", "CHARGING"⟩) (Except.ok ("t", 7))

/-- C6: every transport-level failure in `api_post` or `api_get` is
normalized to the single domain error with its fixed localized category
message — connection timeout to 连接超时, connection refused/unreachable
to 连接错误, read timeout to 数据读取超时, HTTP protocol error to
Http错误, any other transport exception to 网络错误 — and never escapes
as a raw exception. -/
theorem C6_transport_errors_normalized :
    (api_post_response TransportOutcome.connectTimeout =
        ApiOutcome.apiError (Json.str "连接超时") ∧
      api_get_response TransportOutcome.connectTimeout =
        ApiOutcome.apiError (Json.str "连接超时")) ∧
    (api_post_response TransportOutcome.connectionError =
        ApiOutcome.apiError (Json.str "连接错误") ∧
      api_get_response TransportOutcome.connectionError =
        ApiOutcome.apiError (Json.str "连接错误")) ∧
    (api_post_response TransportOutcome.readTimeout =
        ApiOutcome.apiError (Json.str "数据读取超时") ∧
      api_get_response TransportOutcome.readTimeout =
        ApiOutcome.apiError (Json.str "数据读取超时")) ∧
    (api_post_response TransportOutcome.httpError =
        ApiOutcome.apiError (Json.str "Http错误") ∧
      api_get_response TransportOutcome.httpError =
        ApiOutcome.apiError (Json.str "Http错误")) ∧
    (api_post_response TransportOutcome.otherException =
        ApiOutcome.apiError (Json.str "网络错误") ∧
      api_get_response TransportOutcome.otherException =
        ApiOutcome.apiError (Json.str "网络错误")) :=
  ⟨⟨rfl, rfl⟩, ⟨rfl, rfl⟩, ⟨rfl, rfl⟩, ⟨rfl, rfl⟩, ⟨rfl, rfl⟩⟩

theorem isNegOne_iff (c : Json) : isNegOne c = true ↔ c = Json.num (-1) := by
  cases c <;> simp [isNegOne]

/-- C5: for every response envelope (a JSON object carrying `code` and
`message` fields) decoded by `api_post` or `api_get`: if `code` equals -1
the call raises the domain error carrying the envelope's `message` field
verbatim; if `code` is any other value the call returns the envelope's
`data` field, which may be absent (`none`). The outcome is a single
`ApiOutcome`, so a call never both returns a payload and raises. -/
theorem C5_envelope_decode (fields : List (String × Json)) (c m : Json)
    (hc : (Json.obj fields).lookup "code" = some c)
    (hm : (Json.obj fields).lookup "message" = some m) :
    (c = Json.num (-1) →
      api_post_response (TransportOutcome.body (Json.obj fields)) =
          ApiOutcome.apiError m ∧
        api_get_response (TransportOutcome.body (Json.obj fields)) =
          ApiOutcome.apiError m) ∧
    (c ≠ Json.num (-1) →
      api_post_response (TransportOutcome.body (Json.obj fields)) =
          ApiOutcome.ok ((Json.obj fields).lookup "data") ∧
        api_get_response (TransportOutcome.body (Json.obj fields)) =
          ApiOutcome.ok ((Json.obj fields).lookup "data")) := by
  have hgc : getItem (Json.obj fields) "code" = Except.ok c := by
    simp only [getItem]
    simp only [Json.lookup] at hc
    rw [hc]
  have hgm : getItem (Json.obj fields) "message" = Except.ok m := by
    simp only [getItem]
    simp only [Json.lookup] at hm
    rw [hm]
  constructor
  · intro hneg
    have hb : isNegOne c = true := (isNegOne_iff c).mpr hneg
    constructor <;>
      simp [api_post_response, api_get_response, hgc, hgm, hb]
  · intro hpos
    have hb : isNegOne c = false := by
      rcases Bool.eq_false_or_eq_true (isNegOne c) with ht | hf
      · exact absurd ((isNegOne_iff c).mp ht) hpos
      · exact hf
    constructor <;>
      simp [api_post_response, api_get_response, hgc, hb]

theorem C5_witness :
    api_post_response (TransportOutcome.body (Json.obj
        [("code", Json.num (-1)), ("message", Json.str "用户名已存在"),
          ("data", Json.null)])) =
      ApiOutcome.apiError (Json.str "用户名已存在") ∧
    api_get_response (TransportOutcome.body (Json.obj
        [("code", Json.num (-1)), ("message", Json.str "用户名已存在"),
          ("data", Json.null)])) =
      ApiOutcome.apiError (Json.str "用户名已存在") :=
  (C5_envelope_decode
      [("code", Json.num (-1)), ("message", Json.str "用户名已存在"),
        ("data", Json.null)]
      (Json.num (-1)) (Json.str "用户名已存在") rfl rfl).1 rfl

/-- C9: `api_post` and `api_get` attach an `Authorization` header carrying
the session token iff the token is non-empty; with an empty token no
`Authorization` header is sent. -/
theorem C9_auth_header_iff (token path : String) (body : Json) :
    ((api_post_request token path body).authHeader =
        some ("Bearer " ++ token) ↔ token ≠ "") ∧
    ((api_post_request token path body).authHeader = none ↔ token = "") ∧
    ((api_get_request token path).authHeader =
        some ("Bearer " ++ token) ↔ token ≠ "") ∧
    ((api_get_request token path).authHeader = none ↔ token = "") := by
  by_cases h : token = ""
  · have hz : token.length = 0 := (string_length_eq_zero token).mpr h
    simp [api_post_request, api_get_request, hz, h]
  · have hz : token.length ≠ 0 := fun hz => h ((string_length_eq_zero token).mp hz)
    have hpos : 0 < token.length := Nat.pos_of_ne_zero hz
    simp [api_post_request, api_get_request, hpos, h]

/-- C8: both the submit handler and the edit handler translate the
human-facing mode label before transmission: the `charge_mode` field of
the transmitted body is `"F"` iff the label is 快充, and `"T"` iff it is
any other label. -/
theorem C8_mode_label_encoding (mode_text require_amount battery_capacity : String) :
    ((on_submit_clicked mode_text require_amount battery_capacity).lookup
        "charge_mode" = some (Json.str "F") ↔ mode_text = "快充") ∧
    ((on_submit_clicked mode_text require_amount battery_capacity).lookup
        "charge_mode" = some (Json.str "T") ↔ mode_text ≠ "快充") ∧
    ((on_edit_request_clicked mode_text require_amount).lookup
        "charge_mode" = some (Json.str "F") ↔ mode_text = "快充") ∧
    ((on_edit_request_clicked mode_text require_amount).lookup
        "charge_mode" = some (Json.str "T") ↔ mode_text ≠ "快充") := by
  by_cases h : mode_text = "快充" <;>
    simp [on_submit_clicked, on_edit_request_clicked,
      submit_charging_request_body, edit_charging_request_body,
      Json.lookup, List.lookup, h]

/-- C7: a successful login whose `is_admin` flag is true is rejected: the
handler surfaces the domain message 请使用用户账号 and leaves the state —
in particular the session token — unchanged; with the flag false the
returned token is stored, the state labels show the authenticated state,
and a subsequent `preview_queue` request carries that token in its
`Authorization` header. -/
theorem C7_login_admin_gate (st : ClientState) (tok : String) :
    on_login_clicked st (Except.ok (tok, true)) = (st, ["请使用用户账号"]) ∧
    ((on_login_clicked st (Except.ok (tok, false))).1.token = tok ∧
      (on_login_clicked st (Except.ok (tok, false))).1.user_state_label =
        "已登陆") ∧
    (tok ≠ "" →
      (api_get_request tok "/user/preview_queue").authHeader =
        some ("Bearer " ++ tok)) := by
  refine ⟨rfl, ⟨rfl, rfl⟩, fun h => ?_⟩
  have hz : tok.length ≠ 0 := fun hz => h ((string_length_eq_zero tok).mp hz)
  simp [api_get_request, Nat.pos_of_ne_zero hz]

theorem C7_witness :
    on_login_clicked initClientState (Except.ok ("tk99", true)) =
      (initClientState, ["请使用用户账号"]) ∧
    (on_login_clicked initClientState (Except.ok ("tk99", false))).1.token =
      "tk99" ∧
    (api_get_request "tk99" "/user/preview_queue").authHeader =
      some ("Bearer " ++ "tk99") :=
  ⟨(C7_login_admin_gate initClientState "tk99").1,
    (C7_login_admin_gate initClientState "tk99").2.1.1,
    (C7_login_admin_gate initClientState "tk99").2.2 (by decide)⟩

/-- C10: any response body that parses as JSON but is not an object
containing a `code` key makes `api_post` and `api_get` escape with a raw
exception (`KeyError` or `TypeError`) instead of the normalized domain
error, because `resp['code']` is evaluated outside the `try` block. -/
theorem C10_raw_exception_escape (j : Json) (h : j.lookup "code" = none) :
    ∃ e, api_post_response (TransportOutcome.body j) = ApiOutcome.raw e ∧
      api_get_response (TransportOutcome.body j) = ApiOutcome.raw e := by
  cases j with
  | obj fields =>
      refine ⟨RawExc.keyError "code", ?_, ?_⟩ <;>
        · simp only [Json.lookup] at h
          simp [api_post_response, api_get_response, getItem, h]
  | null => exact ⟨RawExc.typeError, rfl, rfl⟩
  | bool b => exact ⟨RawExc.typeError, rfl, rfl⟩
  | num n => exact ⟨RawExc.typeError, rfl, rfl⟩
  | str s => exact ⟨RawExc.typeError, rfl, rfl⟩
  | arr elems => exact ⟨RawExc.typeError, rfl, rfl⟩

theorem C10_witness :
    ∃ e, api_post_response (TransportOutcome.body (Json.obj [("foo", Json.null)])) =
        ApiOutcome.raw e ∧
      api_get_response (TransportOutcome.body (Json.obj [("foo", Json.null)])) =
        ApiOutcome.raw e :=
  C10_raw_exception_escape (Json.obj [("foo", Json.null)]) rfl

/-- C2 as stated is false: after a successful tick the stored observation
is not a function of the currently observed variant alone. Two states that
differ only in the stored `last_state` (1 vs 0) both observe
WAITINGSTAGE1 on the next tick, yet their post-tick `last_state` values
differ — the code leaves `last_state` untouched on WAITINGSTAGE1 instead
of updating it to the current variant. -/
theorem C2_counterexample :
    (preview_callback ⟨"tok", 1, "", "", "", "", "", ""⟩
        (Except.ok ⟨0, none, "WAITINGSTAGE1"⟩) (Except.ok ("t", 0))).state.last_state ≠
      (preview_callback ⟨"tok", 0, "", "", "", "", "", ""⟩
        (Except.ok ⟨0, none, "WAITINGSTAGE1"⟩) (Except.ok ("t", 0))).state.last_state := by
  decide

/-- C2 amended: at process start the stored observation is initialized to
0, the NotCharging-equivalent; on a successful authenticated tick it is
set to 1 exactly when the tick observes CHARGING, reset to 0 when the tick
observes NOTCHARGING, and on every other variant (WAITINGSTAGE1,
WAITINGSTAGE2, CHANGEMODEREQUEUE, FAULTREQUEUE, or unknown) it is left
unchanged rather than updated to the current variant. -/
theorem C2_last_state_update (st : ClientState) (h : st.token ≠ "")
    (hf : st.last_state = 0 ∨ st.last_state = 1)
    (p : PreviewData) (t : String × Int) :
    initClientState.last_state = 0 ∧
    (preview_callback st (Except.ok p) (Except.ok t)).state.last_state =
      (if p.cur_state = "NOTCHARGING" then 0
       else if p.cur_state = "CHARGING" then 1
       else st.last_state) := by
  refine ⟨rfl, ?_⟩
  rw [(preview_tick_success st h p t).2.1]
  unfold stepFlag
  rcases hf with h0 | h1 <;> split_ifs <;> simp_all

theorem C2_witness :
    initClientState.last_state = 0 ∧
    (preview_callback ⟨"tok", 1, "", "", "", "", "", ""⟩
        (Except.ok ⟨0, none, "FAULTREQUEUE"⟩) (Except.ok ("t", 0))).state.last_state =
      (if ("FAULTREQUEUE" : String) = "NOTCHARGING" then 0
       else if ("FAULTREQUEUE" : String) = "CHARGING" then 1
       else (1 : Int)) :=
  C2_last_state_update ⟨"tok", 1, "", "", "", "", "", ""⟩ (by decide)
    (Or.inr rfl) ⟨0, none, "FAULTREQUEUE"⟩ ("t", 0)

theorem stepFlag_mem (flag : Int) (o : String) (hf : flag = 0 ∨ flag = 1) :
    stepFlag flag o = 0 ∨ stepFlag flag o = 1 := by
  unfold stepFlag
  rcases hf with h | h <;> subst h <;> split_ifs <;> omega

theorem nil_no_split (pre post : List String) :
    ¬ (([] : List String) = pre ++ "CHARGING" :: post) := by
  intro h
  cases pre <;> simp at h

/-- Pushing one observation in front of a run commutes with the
"some CHARGING with no NOTCHARGING after it" decomposition, with the
starting-flag disjunct advanced through `stepFlag`. -/
theorem cons_charging_split (o : String) (l : List String) (flag : Int)
    (hf : flag = 0 ∨ flag = 1) :
    ((∃ pre post, o :: l = pre ++ "CHARGING" :: post ∧ "NOTCHARGING" ∉ post)
      ∨ (flag = 1 ∧ "NOTCHARGING" ∉ o :: l))
    ↔ ((∃ pre post, l = pre ++ "CHARGING" :: post ∧ "NOTCHARGING" ∉ post)
      ∨ (stepFlag flag o = 1 ∧ "NOTCHARGING" ∉ l)) := by
  by_cases hNC : o = "NOTCHARGING"
  · subst hNC
    have hsf : stepFlag flag "NOTCHARGING" = 0 := by
      rcases hf with h | h <;> subst h <;> simp [stepFlag]
    rw [hsf]
    constructor
    · rintro (⟨pre, post, heq, hnp⟩ | ⟨h1, hmem⟩)
      · cases pre with
        | nil => simp at heq
        | cons a pre =>
            simp only [List.cons_append, List.cons.injEq] at heq
            exact Or.inl ⟨pre, post, heq.2, hnp⟩
      · exact absurd (List.mem_cons_self _ _) hmem
    · rintro (⟨pre, post, heq, hnp⟩ | ⟨h0, -⟩)
      · exact Or.inl ⟨"NOTCHARGING" :: pre, post, by rw [heq]; rfl, hnp⟩
      · exact absurd h0 (by decide)
  · by_cases hCH : o = "CHARGING"
    · subst hCH
      have hsf : stepFlag flag "CHARGING" = 1 := by simp [stepFlag]
      rw [hsf]
      constructor
      · rintro (⟨pre, post, heq, hnp⟩ | ⟨h1, hmem⟩)
        · cases pre with
          | nil =>
              simp only [List.nil_append, List.cons.injEq] at heq
              exact Or.inr ⟨rfl, heq.2 ▸ hnp⟩
          | cons a pre =>
              simp only [List.cons_append, List.cons.injEq] at heq
              exact Or.inl ⟨pre, post, heq.2, hnp⟩
        · exact Or.inr ⟨rfl, fun hm => hmem (List.mem_cons_of_mem _ hm)⟩
      · rintro (⟨pre, post, heq, hnp⟩ | ⟨-, hmem⟩)
        · exact Or.inl ⟨"CHARGING" :: pre, post, by rw [heq]; rfl, hnp⟩
        · exact Or.inl ⟨[], l, rfl, hmem⟩
    · have hsf : stepFlag flag o = flag := by simp [stepFlag, hNC, hCH]
      rw [hsf]
      constructor
      · rintro (⟨pre, post, heq, hnp⟩ | ⟨h1, hmem⟩)
        · cases pre with
          | nil =>
              simp only [List.nil_append, List.cons.injEq] at heq
              exact absurd heq.1 hCH
          | cons a pre =>
              simp only [List.cons_append, List.cons.injEq] at heq
              exact Or.inl ⟨pre, post, heq.2, hnp⟩
        · exact Or.inr ⟨h1, fun hm => hmem (List.mem_cons_of_mem _ hm)⟩
      · rintro (⟨pre, post, heq, hnp⟩ | ⟨h1, hmem⟩)
        · exact Or.inl ⟨o :: pre, post, by rw [heq]; rfl, hnp⟩
        · refine Or.inr ⟨h1, fun hm => ?_⟩
          rcases List.mem_cons.mp hm with h | h
          · exact hNC h.symm
          · exact hmem h

/-- Characterization of the reference recursion: the run emits at position
`i` exactly when position `i` observes NOTCHARGING and either some earlier
position observed CHARGING with no NOTCHARGING between it and `i`, or the
run started with the flag already at 1 and saw no NOTCHARGING before `i`. -/
theorem notifList_spec :
    ∀ (obs : List String) (flag : Int) (i : Nat),
      (flag = 0 ∨ flag = 1) → i < obs.length →
      ((notifList flag obs).getD i false = true ↔
        (obs.getD i "" = "NOTCHARGING" ∧
          ((∃ pre post,
              obs.take i = pre ++ "CHARGING" :: post ∧ "NOTCHARGING" ∉ post)
            ∨ (flag = 1 ∧ "NOTCHARGING" ∉ obs.take i)))) := by
  intro obs
  induction obs with
  | nil =>
      intro flag i hf hi
      simp at hi
  | cons o rest ih =>
      intro flag i hf hi
      cases i with
      | zero =>
          simp only [notifList, List.getD_cons_zero, List.take_zero,
            Bool.and_eq_true, decide_eq_true_eq]
          constructor
          · rintro ⟨h1, h2⟩
            exact ⟨h1, Or.inr ⟨h2, List.not_mem_nil _⟩⟩
          · rintro ⟨h1, ⟨pre, post, heq, -⟩ | ⟨h2, -⟩⟩
            · exact absurd heq (nil_no_split pre post)
            · exact ⟨h1, h2⟩
      | succ i =>
          have hi' : i < rest.length := Nat.succ_lt_succ_iff.mp hi
          simp only [notifList, List.getD_cons_succ, List.take_succ_cons]
          exact (ih (stepFlag flag o) i (stepFlag_mem flag o hf) hi').trans
            (and_congr_right fun _ =>
              (cons_charging_split o (rest.take i) flag hf).symm)

/-- `pollNotifs` over the real callback on authenticated successful ticks
agrees with the reference recursion over the observed variants. -/
theorem pollNotifs_eq_notifList :
    ∀ (ticks : List (PreviewData × String × Int)) (st : ClientState),
      st.token ≠ "" →
      pollNotifs st ticks =
        notifList st.last_state (ticks.map fun tk => tk.1.cur_state) := by
  intro ticks
  induction ticks with
  | nil => intro st h; rfl
  | cons tk rest ih =>
      intro st h
      have hs := preview_tick_success st h tk.1 tk.2
      simp only [pollNotifs, notifList, List.map]
      congr 1
      · rw [hs.2.2]
        by_cases h1 : tk.1.cur_state = "NOTCHARGING" <;>
          by_cases h2 : st.last_state = 1 <;> simp [h1, h2]
      · rw [ih _ (by rw [hs.1]; exact h), hs.2.1]

/-- C1 as stated is false on the code: a run observing CHARGING, then
WAITINGSTAGE1, then NOTCHARGING emits the completion notification on the
third tick, although the immediately preceding successful observation was
WAITINGSTAGE1, not CHARGING. -/
theorem C1_counterexample :
    (pollNotifs ⟨"tok", 0, "", "", "", "", "", ""⟩
        [(⟨0, none, "CHARGING"⟩, "t", 0), (⟨0, none, "WAITINGSTAGE1"⟩, "t", 0),
          (⟨0, none, "NOTCHARGING"⟩, "t", 0)]).getD 2 false = true ∧
    (([(⟨0, none, "CHARGING"⟩, "t", 0), (⟨0, none, "WAITINGSTAGE1"⟩, "t", 0),
        (⟨0, none, "NOTCHARGING"⟩, "t", 0)] :
          List (PreviewData × String × Int)).map
        (fun tk => tk.1.cur_state)).getD 1 "" ≠ "CHARGING" := by
  decide

/-- C1 amended: over every run of authenticated successful poll ticks
started with the initial flag, the completion notification is emitted on
tick `i` iff tick `i` observes NOTCHARGING and some strictly earlier tick
observed CHARGING with no NOTCHARGING observed between the two. It is
thus emitted exactly once per such episode and never on repeated
NOTCHARGING, but an edge is detected against the last CHARGING
observation, not against the immediately preceding observation. -/
theorem C1_completion_notification_edge (st : ClientState)
    (htok : st.token ≠ "") (hinit : st.last_state = 0)
    (ticks : List (PreviewData × String × Int)) (i : Nat)
    (hi : i < ticks.length) :
    ((pollNotifs st ticks).getD i false = true ↔
      ((ticks.map fun tk => tk.1.cur_state).getD i "" = "NOTCHARGING" ∧
        ∃ pre post,
          (ticks.map fun tk => tk.1.cur_state).take i =
            pre ++ "CHARGING" :: post ∧
          "NOTCHARGING" ∉ post)) := by
  rw [pollNotifs_eq_notifList ticks st htok, hinit]
  have hlen : i < (ticks.map fun tk => tk.1.cur_state).length := by
    simpa using hi
  rw [notifList_spec _ 0 i (Or.inl rfl) hlen]
  constructor
  · rintro ⟨h1, h2 | ⟨h0, -⟩⟩
    · exact ⟨h1, h2⟩
    · exact absurd h0 (by decide)
  · rintro ⟨h1, h2⟩
    exact ⟨h1, Or.inl h2⟩

theorem C1_witness :
    (pollNotifs ⟨"tok", 0, "", "", "", "", "", ""⟩
        [(⟨0, none, "CHARGING"⟩, "t", 0),
          (⟨0, none, "NOTCHARGING"⟩, "t", 0)]).getD 1 false = true := by
  rw [C1_completion_notification_edge ⟨"tok", 0, "", "", "", "", "", ""⟩
    (by decide) rfl _ 1 (by decide)]
  exact ⟨rfl, [], [], rfl, by simp⟩

end Acss
